import Mathlib

set_option maxHeartbeats 1000000
set_option maxRecDepth 4096

/-!
Shallow embedding of the stellar wind particle synthesizer
(source file: src/stellar_wind.py).

Conventions of the embedding:
* Python floats are modelled as exact rationals where the engine state is
  concerned (mass-loss bookkeeping, the sampler), and as real numbers for the
  acceleration-law formulas, which use a square root.
* Python int() conversion is truncation toward zero (pyInt).
* numpy boolean-mask filtering becomes List.filter.
* The unbounded while-True oversampling loop of uniform_hollow_sphere is
  embedded with an explicit fuel argument; running out of fuel is reported as
  a distinguished timeout value, a raised Python exception as an error value.
* The external numerical backend (scipy quadrature and brentq root finding)
  is not repository code; brentq is modelled relationally by its contract of
  returning a root of the residual inside the requested bracket.
-/

/-- Python int() conversion applied to a rational number: truncation toward
zero, i.e. ceiling for negative arguments and floor otherwise. -/
def pyInt (q : ℚ) : ℤ := if q < 0 then ⌈q⌉ else ⌊q⌋

/-- A candidate sample point in the cube [-1,1]^3, as produced by the cube
generators of PositionGenerator. -/
abbrev Point3 := ℚ × ℚ × ℚ

/-- Squared Euclidean norm of a point. The source computes
r = numpy.sqrt((positions**2).sum(1)); we keep the sum of squares and state
the radius comparisons on squares, which is equivalent since r is the
nonnegative square root. -/
def normSq (p : Point3) : ℚ := p.1 ^ 2 + p.2.1 ^ 2 + p.2.2 ^ 2

/-- Membership test used by PositionGenerator.cutout_sphere: the source keeps
the points with (r >= rmin) & (r < 1). Since r = sqrt(normSq p) is
nonnegative, r >= rmin holds iff rmin <= 0 or rmin^2 <= normSq p, and r < 1
holds iff normSq p < 1. -/
def in_shell (rmin : ℚ) (p : Point3) : Bool :=
  decide ((rmin ≤ 0 ∨ rmin ^ 2 ≤ normSq p) ∧ normSq p < 1)

/-- PositionGenerator.cutout_sphere: keep the candidate points whose radius
lies in the hollow sphere [rmin, 1). -/
def cutout_sphere (positions : List Point3) (rmin : ℚ) : List Point3 :=
  positions.filter (fun p => in_shell rmin p)

/-- Result of the adaptive oversampling loop of uniform_hollow_sphere:
a returned sample list, a raised Python exception (error), or fuel
exhaustion standing for divergence of the unbounded while-True loop. -/
inductive GenResult where
  | ok : List Point3 → GenResult
  | error : GenResult
  | timeout : GenResult
deriving DecidableEq

/-- PositionGenerator.random_cube: N points drawn from the pseudo-random
source. numpy.random.uniform(-1, 1, 3 * N) reshaped to (N, 3) is modelled by
reading N points off an ambient stream of points. -/
def random_cube (stream : ℕ → Point3) (N : ℕ) : List Point3 :=
  (List.range N).map stream

/-- PositionGenerator.regular_grid_unit_cube. In the source this method takes
no count argument yet uniform_hollow_sphere invokes it with one, so every
call raises a TypeError; moreover its body reads the undefined name targetN
and calls the Python-2-only builtin long. Its denotation as called is
therefore the error value none for every requested count. -/
def regular_grid_unit_cube : ℕ → Option (List Point3) := fun _ => none

/-- PositionGenerator.body_centered_grid_unit_cube. Exactly as with
regular_grid_unit_cube, the source method takes no count argument yet is
invoked with one, and its body reads the undefined name targetN, so every
call raises; its denotation as called is none for every count. -/
def body_centered_grid_unit_cube : ℕ → Option (List Point3) := fun _ => none

/-- The cube_generator dispatch dictionary of PositionGenerator.__init__,
keyed by grid_type. The random strategy consumes the ambient random stream;
the two grid strategies always fail when called (see above). -/
def cube_generator (grid_type : String) (stream : ℕ → Point3) :
    ℕ → Option (List Point3) :=
  if grid_type = "random" then fun N => some (random_cube stream N)
  else if grid_type = "regular" then regular_grid_unit_cube
  else body_centered_grid_unit_cube

/-- The while-True body of PositionGenerator.uniform_hollow_sphere:
grow the candidate estimate by estimatedN * 1.1 + 1, generate that many cube
candidates, carve out the hollow sphere, and stop as soon as at least N
survive, returning the first N of them. The fuel argument bounds the number
of iterations of the unbounded source loop. -/
def hollow_sphere_loop (cube : ℕ → Option (List Point3)) (N : ℕ) (rmin : ℚ) :
    ℚ → ℕ → GenResult
  | _, 0 => GenResult.timeout
  | estimatedN, fuel + 1 =>
    let e1 := estimatedN * (11/10) + 1
    match cube (pyInt e1).toNat with
    | none => GenResult.error
    | some cubePoints =>
      let hollow_sphere := cutout_sphere cubePoints rmin
      if N ≤ hollow_sphere.length then GenResult.ok (hollow_sphere.take N)
      else hollow_sphere_loop cube N rmin e1 fuel

/-- PositionGenerator.uniform_hollow_sphere. The source seeds the estimate
with N divided by the cube-to-shell volume ratio 4/3 * pi * 0.5^3 *
(1 - rmin^3); since that seed uses the floating-point constant pi and only
affects efficiency, the embedding takes the initial estimate as an explicit
argument and runs the adaptive loop from it. -/
def uniform_hollow_sphere (cube : ℕ → Option (List Point3)) (N : ℕ)
    (rmin estimate0 : ℚ) (fuel : ℕ) : GenResult :=
  hollow_sphere_loop cube N rmin estimate0 fuel

/-- One star of a StarsWithMassLoss collection, with the attributes used by
the mass-loss account and the particle emission code. -/
structure WindStar where
  lost_mass : ℚ
  wind_release_time : ℚ
  wind_mass_loss_rate : ℚ
  terminal_wind_velocity : ℚ
  mechanical_energy : ℚ
  previous_mechanical_luminosity : ℚ
deriving DecidableEq

/-- A StarsWithMassLoss particle collection: the stars together with the
collection attributes read and written by evolve_mass_loss. -/
structure StarCollection where
  stars : List WindStar
  timestamp : ℚ
  previous_time : ℚ
  track_mechanical_energy : Bool
  new_unset_lmech_particles : Bool
deriving DecidableEq

/-- The per-star update performed by StarsWithMassLoss.evolve_mass_loss once
the backward-time guard has passed: accumulate elapsed_time times the
mass-loss rate into lost_mass and, when mechanical-energy tracking is on,
seed an unset previous luminosity (negative sentinel) from the new value,
trapezoidally accumulate the mechanical energy, and store the new
luminosity. The seed flag is the collection attribute
new_unset_lmech_particles. -/
def evolve_star_step (elapsed_time : ℚ) (track seed : Bool) (s : WindStar) :
    WindStar :=
  let s1 := { s with lost_mass := s.lost_mass + elapsed_time * s.wind_mass_loss_rate }
  if track then
    let new_mechanical_luminosity :=
      1/2 * s1.wind_mass_loss_rate * s1.terminal_wind_velocity ^ 2
    let prev :=
      if seed && decide (s1.previous_mechanical_luminosity < 0) then
        new_mechanical_luminosity
      else s1.previous_mechanical_luminosity
    { s1 with
      mechanical_energy := s1.mechanical_energy
        + elapsed_time * (1/2 * (prev + new_mechanical_luminosity)),
      previous_mechanical_luminosity := new_mechanical_luminosity }
  else s1

/-- StarsWithMassLoss.evolve_mass_loss: if the requested time is strictly
before the last recorded time, return unchanged; otherwise integrate the
elapsed time into every star and stamp both recorded times. The
new_unset_lmech_particles flag is cleared exactly when tracking is on and it
was set. -/
def evolve_mass_loss (time : ℚ) (c : StarCollection) : StarCollection :=
  if c.previous_time > time then c
  else
    let elapsed_time := time - c.previous_time
    { c with
      stars := c.stars.map
        (evolve_star_step elapsed_time c.track_mechanical_energy
          c.new_unset_lmech_particles),
      timestamp := time,
      previous_time := time,
      new_unset_lmech_particles :=
        if c.track_mechanical_energy && c.new_unset_lmech_particles then false
        else c.new_unset_lmech_particles }

/-- A sequence of advance calls on the mass-loss account, applied in order. -/
def advance_seq (ts : List ℚ) (c : StarCollection) : StarCollection :=
  ts.foldl (fun acc t => evolve_mass_loss t acc) c

/-- StarsWithMassLoss.set_begin_time: rewind the release-time markers and
both recorded times. -/
def set_begin_time (time : ℚ) (c : StarCollection) : StarCollection :=
  { c with
    stars := c.stars.map (fun s => { s with wind_release_time := time }),
    timestamp := time,
    previous_time := time }

/-- StarsWithMassLoss.reset: zero the lost mass of every star and rewind the
clock markers to zero. -/
def reset_collection (c : StarCollection) : StarCollection :=
  set_begin_time 0 { c with stars := c.stars.map (fun s => { s with lost_mass := 0 }) }

/-- SimpleWind.create_wind_particles_for_one_star: convert the accumulated
lost mass into an integer particle count via Python int() and subtract the
emitted mass. The particle batch is represented by its particle count; all
emitted particles carry the configured sph_particle_mass. -/
def create_wind_particles_for_one_star (sph_particle_mass : ℚ) (star : WindStar) :
    WindStar × ℕ :=
  let Ngas : ℤ := pyInt (star.lost_mass / sph_particle_mass)
  ({ star with lost_mass := star.lost_mass - (Ngas : ℚ) * sph_particle_mass },
   Ngas.toNat)

/-- The per-star body of the loop in SimpleWind.create_wind_particles: emit
for a star only when its lost mass strictly exceeds the particle mass, in
which case the release time is stamped with the current model time. -/
def create_wind_particles_step (model_time sph_particle_mass : ℚ)
    (star : WindStar) : WindStar × ℕ :=
  if sph_particle_mass < star.lost_mass then
    let r := create_wind_particles_for_one_star sph_particle_mass star
    ({ r.1 with wind_release_time := model_time }, r.2)
  else (star, 0)

/-- SimpleWind.create_wind_particles: run the per-star emission over the
whole collection, returning the updated stars and the total number of
emitted particles. -/
def create_wind_particles (model_time sph_particle_mass : ℚ)
    (stars : List WindStar) : List WindStar × ℕ :=
  (stars.map (fun s => (create_wind_particles_step model_time sph_particle_mass s).1),
   (stars.map (fun s => (create_wind_particles_step model_time sph_particle_mass s).2)).sum)

/-- SimpleWind.has_new_wind_particles: the maximum lost mass over the
collection strictly exceeds the particle mass. -/
def has_new_wind_particles (sph_particle_mass : ℚ) (stars : List WindStar) :
    Bool :=
  match (stars.map (fun s => s.lost_mass)).max? with
  | some q => decide (sph_particle_mass < q)
  | none => false

/-- The mutable state threaded through the catch-up loop of
SimpleWind.evolve_model when a target gas collection is configured: the star
collection, the size of the target gas collection, and the model time. -/
structure LoopState where
  particles : StarCollection
  gas : ℕ
  model_time : ℚ
deriving DecidableEq

/-- One iteration body of the catch-up loop of SimpleWind.evolve_model:
integrate the mass loss at the current model time and, if some star has
accumulated more than one particle mass, emit and append to the target gas. -/
def loop_body (sph_particle_mass : ℚ) (st : LoopState) : StarCollection × ℕ :=
  let c1 := evolve_mass_loss st.model_time st.particles
  if has_new_wind_particles sph_particle_mass c1.stars then
    let w := create_wind_particles st.model_time sph_particle_mass c1.stars
    ({ c1 with stars := w.1 }, st.gas + w.2)
  else (c1, st.gas)

/-- The while model_time <= time catch-up loop of SimpleWind.evolve_model,
returning the final loop state and the number of iterations executed. The
source loop does not terminate for a non-positive timestep, so the embedding
guards the iteration on 0 < dt; all claims about the loop assume a positive
timestep. -/
def evolve_loop (time dt sph_particle_mass : ℚ) (st : LoopState) :
    LoopState × ℕ :=
  if h : 0 < dt ∧ st.model_time ≤ time then
    let b := loop_body sph_particle_mass st
    let r := evolve_loop time dt sph_particle_mass ⟨b.1, b.2, st.model_time + dt⟩
    (r.1, r.2 + 1)
  else (st, 0)
termination_by (⌊(time - st.model_time) / dt⌋ + 1).toNat
decreasing_by
  obtain ⟨hdt, hle⟩ := h
  have key : (time - (st.model_time + dt)) / dt = (time - st.model_time) / dt - 1 := by
    field_simp
    ring
  have h0 : (0 : ℤ) ≤ ⌊(time - st.model_time) / dt⌋ :=
    Int.floor_nonneg.2 (div_nonneg (by linarith) hdt.le)
  rw [key, Int.floor_sub_one]
  omega

/-- The SimpleWind engine state: the star collection, the configured particle
mass, the model time, and, when a target gas collection is configured, its
size together with the configured timestep (the source sets target_gas and
timestep together in set_target_gas and leaves both None otherwise). -/
structure WindEngine where
  particles : StarCollection
  sph_particle_mass : ℚ
  model_time : ℚ
  target : Option (ℕ × ℚ)
deriving DecidableEq

/-- SimpleWind.has_target. -/
def has_target (e : WindEngine) : Bool := e.target.isSome

/-- SimpleWind.evolve_model: with a target gas collection, run the catch-up
loop from the current model time; without one, jump the model time to the
requested time and integrate the mass loss once. -/
def evolve_model (time : ℚ) (e : WindEngine) : WindEngine :=
  match e.target with
  | some (gas, dt) =>
    let r := evolve_loop time dt e.sph_particle_mass ⟨e.particles, gas, e.model_time⟩
    { e with
      particles := r.1.particles,
      target := some (r.1.gas, dt),
      model_time := r.1.model_time }
  | none =>
    { e with
      model_time := time,
      particles := evolve_mass_loss time e.particles }

/-- SimpleWind.reset: reset the star collection and zero the model time. -/
def reset_engine (e : WindEngine) : WindEngine :=
  { e with particles := reset_collection e.particles, model_time := 0 }

/-- SimpleWind.create_initial_wind on the number-given path: compute the time
needed for the requested number of particles from the summed mass-loss
rates, jump the model time there, integrate the mass loss, emit if possible
(raising, modelled as none, when nothing can be emitted and check_length is
set), append to the target gas when one is configured, and reset the engine.
Returns the emitted batch size together with the engine after the reset. -/
def create_initial_wind (number : ℕ) (check_length : Bool) (e : WindEngine) :
    Option (ℕ × WindEngine) :=
  let required_mass := (number : ℚ) * e.sph_particle_mass
  let total_mass_loss := (e.particles.stars.map (fun s => s.wind_mass_loss_rate)).sum
  let time := 1 * required_mass / total_mass_loss
  let c := evolve_mass_loss time e.particles
  let e2 := { e with model_time := time, particles := c }
  if has_new_wind_particles e2.sph_particle_mass c.stars then
    let w := create_wind_particles e2.model_time e2.sph_particle_mass c.stars
    let e3 := { e2 with
      particles := { c with stars := w.1 },
      target := match e2.target with
        | some (gas, dt) => some (gas + w.2, dt)
        | none => none }
    some (w.2, reset_engine e3)
  else if check_length then none
  else some (0, reset_engine e2)

/-- The per-star attributes read by the acceleration-law formulas. In the
accelerating wind mode, acc_start and acc_cutoff are derived from the
stellar radius by the configured ratios; here they are plain fields. -/
structure AccStar where
  radius : ℝ
  acc_start : ℝ
  acc_cutoff : ℝ
  initial_wind_velocity : ℝ
  terminal_wind_velocity : ℝ

/-- AccelerationFunction.fix_v_cutoff on a scalar radius: beyond the cutoff
radius (strictly) the velocity is clamped to the terminal wind velocity. -/
noncomputable def fix_v_cutoff (star : AccStar) (r v : ℝ) : ℝ :=
  if star.acc_cutoff < r then star.terminal_wind_velocity else v

/-- DelayedRSquaredAcceleration.fix_v_start_cutoff on a scalar radius: below
the acceleration start radius (strictly) the velocity is clamped to the
initial wind velocity. -/
noncomputable def fix_v_start_cutoff (star : AccStar) (r v : ℝ) : ℝ :=
  if r < star.acc_start then star.initial_wind_velocity else v

/-- ConstantVelocityAcceleration.velocity_from_radius: the terminal velocity
at every radius. -/
noncomputable def constant_velocity_velocity_from_radius (star : AccStar) (r : ℝ) : ℝ :=
  star.terminal_wind_velocity

/-- ConstantVelocityAcceleration.radius_from_number: linear interpolation of
the quantile between the stellar radius and r_max. -/
noncomputable def constant_velocity_radius_from_number (x r_max : ℝ) (star : AccStar) : ℝ :=
  x * (r_max - star.radius) + star.radius

/-- ConstantVelocityAcceleration.radius_from_time. -/
noncomputable def constant_velocity_radius_from_time (t : ℝ) (star : AccStar) : ℝ :=
  star.radius + t * star.terminal_wind_velocity

/-- RSquaredAcceleration.scaling. -/
noncomputable def rsquared_scaling (star : AccStar) : ℝ :=
  1/2 * ((star.terminal_wind_velocity ^ 2 - star.initial_wind_velocity ^ 2)
    / (1 / star.radius - 1 / star.acc_cutoff))

/-- RSquaredAcceleration.velocity_from_radius, with the cutoff clamp applied
as in the source. -/
noncomputable def rsquared_velocity_from_radius (star : AccStar) (r : ℝ) : ℝ :=
  fix_v_cutoff star r
    (Real.sqrt (2 * rsquared_scaling star * (1 / star.radius - 1 / r)
      + star.initial_wind_velocity ^ 2))

/-- DelayedRSquaredAcceleration.scaling. -/
noncomputable def delayed_rsquared_scaling (star : AccStar) : ℝ :=
  1/2 * ((star.terminal_wind_velocity ^ 2 - star.initial_wind_velocity ^ 2)
    / (1 / star.acc_start - 1 / star.acc_cutoff))

/-- DelayedRSquaredAcceleration.velocity_from_radius: the closed form with
the start clamp applied first and the cutoff clamp applied last, as in the
source. -/
noncomputable def delayed_rsquared_velocity_from_radius (star : AccStar) (r : ℝ) : ℝ :=
  fix_v_cutoff star r
    (fix_v_start_cutoff star r
      (Real.sqrt (2 * delayed_rsquared_scaling star * (1 / star.acc_start - 1 / r)
        + star.initial_wind_velocity ^ 2)))

/-- VelocityLawAcceleration.velocity_from_radius with power-law exponent
alpha (default 4 in the source): note that the source applies no cutoff
clamp to this law. -/
noncomputable def velocity_law_velocity_from_radius (alpha : ℕ) (star : AccStar) (r : ℝ) : ℝ :=
  star.initial_wind_velocity
    + (star.terminal_wind_velocity - star.initial_wind_velocity)
      * (1 - star.radius / r) ^ alpha

/-- The residual function handed to the root finder inside
AccelerationFunction.radius_from_number: the cumulative inverse-velocity
integral F, normalised by its value at rmax, minus the quantile. F itself is
produced by the external quadrature backend and is a parameter here. -/
noncomputable def radius_from_number_residual (F : ℝ → ℝ) (r_max x r : ℝ) : ℝ :=
  F r / F r_max - x

/-- Contract of scipy.optimize.brentq, the external root-finding backend: it
returns a root of the residual lying inside the requested bracket. -/
def is_brentq_root (f : ℝ → ℝ) (a b r : ℝ) : Prop :=
  r ∈ Set.Icc a b ∧ f r = 0

/-! ### Claim theorems -/

/-- C1: Mass conservation at emission. After any sequence of advance calls,
every star whose lost mass strictly exceeds the configured particle mass is
emitted exactly floor(lost_mass / particle_mass) particles by the per-star
emission step of create_wind_particles, that many particle masses are
subtracted, so lost_mass_before equals N times the particle mass plus
lost_mass_after, and lost_mass_after is strictly below the particle mass. -/
theorem c1_mass_conservation_at_emission
    (ts : List ℚ) (c0 : StarCollection) (m t : ℚ) (s : WindStar)
    (hm : 0 < m) (hs : s ∈ (advance_seq ts c0).stars)
    (hlost : m < s.lost_mass) :
    ((create_wind_particles_step t m s).2 : ℤ) = ⌊s.lost_mass / m⌋ ∧
    s.lost_mass = ((create_wind_particles_step t m s).2 : ℚ) * m
      + (create_wind_particles_step t m s).1.lost_mass ∧
    (create_wind_particles_step t m s).1.lost_mass < m := by
  have hq1 : (1 : ℚ) < s.lost_mass / m := (one_lt_div hm).2 hlost
  have hq0 : ¬ s.lost_mass / m < 0 := by linarith
  have hpy : pyInt (s.lost_mass / m) = ⌊s.lost_mass / m⌋ := by
    simp [pyInt, hq0]
  have hfl : (1 : ℤ) ≤ ⌊s.lost_mass / m⌋ := by
    rw [Int.le_floor]
    exact_mod_cast hq1.le
  have htn : ((⌊s.lost_mass / m⌋.toNat : ℤ)) = ⌊s.lost_mass / m⌋ :=
    Int.toNat_of_nonneg (by linarith)
  have hstep2 : (create_wind_particles_step t m s).2 = ⌊s.lost_mass / m⌋.toNat := by
    simp [create_wind_particles_step, create_wind_particles_for_one_star, hlost, hpy]
  have hstep1 : (create_wind_particles_step t m s).1.lost_mass
      = s.lost_mass - (⌊s.lost_mass / m⌋ : ℚ) * m := by
    simp [create_wind_particles_step, create_wind_particles_for_one_star, hlost, hpy]
  have hcast : ((⌊s.lost_mass / m⌋.toNat : ℚ)) = ((⌊s.lost_mass / m⌋ : ℤ) : ℚ) := by
    exact_mod_cast htn
  refine ⟨by rw [hstep2]; exact htn, ?_, ?_⟩
  · rw [hstep1, hstep2, hcast]
    ring
  · have hlt : s.lost_mass / m < ⌊s.lost_mass / m⌋ + 1 := Int.lt_floor_add_one _
    have h2 : s.lost_mass < ((⌊s.lost_mass / m⌋ : ℚ) + 1) * m := by
      rw [div_lt_iff hm] at hlt
      exact hlt
    have h3 : ((⌊s.lost_mass / m⌋ : ℚ) + 1) * m = (⌊s.lost_mass / m⌋ : ℚ) * m + m := by
      ring
    rw [hstep1]
    linarith

/-- Witness for C1: a star that accumulated lost mass 3 after advancing a
fresh collection to time 3 at rate 1, emitted with particle mass 1. -/
theorem c1_mass_conservation_at_emission_witness :
    ((0 : ℚ) < 1 ∧
      (⟨3, 0, 1, 0, 0, 0⟩ : WindStar) ∈
        (advance_seq [3] ⟨[⟨0, 0, 1, 0, 0, 0⟩], 0, 0, false, false⟩).stars ∧
      (1 : ℚ) < (⟨3, 0, 1, 0, 0, 0⟩ : WindStar).lost_mass) ∧
    (((create_wind_particles_step 7 1 ⟨3, 0, 1, 0, 0, 0⟩).2 : ℤ)
        = ⌊(⟨3, 0, 1, 0, 0, 0⟩ : WindStar).lost_mass / 1⌋ ∧
      (⟨3, 0, 1, 0, 0, 0⟩ : WindStar).lost_mass
        = ((create_wind_particles_step 7 1 ⟨3, 0, 1, 0, 0, 0⟩).2 : ℚ) * 1
          + (create_wind_particles_step 7 1 ⟨3, 0, 1, 0, 0, 0⟩).1.lost_mass ∧
      (create_wind_particles_step 7 1 ⟨3, 0, 1, 0, 0, 0⟩).1.lost_mass < 1) :=
  ⟨⟨by norm_num, by norm_num [advance_seq, evolve_mass_loss, evolve_star_step], by norm_num⟩,
    c1_mass_conservation_at_emission [3] ⟨[⟨0, 0, 1, 0, 0, 0⟩], 0, 0, false, false⟩
      1 7 ⟨3, 0, 1, 0, 0, 0⟩ (by norm_num)
      (by norm_num [advance_seq, evolve_mass_loss, evolve_star_step]) (by norm_num)⟩

/-- C2: whenever the adaptive oversampling loop of uniform_hollow_sphere
returns a sample (for any cube strategy, any shell fraction in (0,1), any
requested count and any initial estimate), it returns exactly N points, and
every returned point has Euclidean norm r with rmin <= r < 1. -/
theorem c2_uniform_hollow_sphere_count_and_shell
    (cube : ℕ → Option (List Point3)) (N : ℕ) (rmin estimate0 : ℚ) (fuel : ℕ)
    (l : List Point3) (h0 : 0 < rmin) (h1 : rmin < 1)
    (hok : uniform_hollow_sphere cube N rmin estimate0 fuel = GenResult.ok l) :
    l.length = N ∧
      ∀ p ∈ l, ((rmin : ℝ) ≤ Real.sqrt ((normSq p : ℚ) : ℝ)
        ∧ Real.sqrt ((normSq p : ℚ) : ℝ) < 1) := by
  have key : ∀ (n : ℕ) (e0 : ℚ) (l : List Point3),
      hollow_sphere_loop cube N rmin e0 n = GenResult.ok l →
      l.length = N ∧ ∀ p ∈ l, rmin ^ 2 ≤ normSq p ∧ normSq p < 1 := by
    intro n
    induction n with
    | zero =>
      intro e0 l h
      simp [hollow_sphere_loop] at h
    | succ k ih =>
      intro e0 l h
      rw [hollow_sphere_loop] at h
      cases hc : cube (pyInt (e0 * (11/10) + 1)).toNat with
      | none =>
        rw [hc] at h
        simp at h
      | some cubePoints =>
        rw [hc] at h
        simp only at h
        by_cases hlen : N ≤ (cutout_sphere cubePoints rmin).length
        · rw [if_pos hlen] at h
          have hl : (cutout_sphere cubePoints rmin).take N = l := by
            cases h
            rfl
          subst hl
          constructor
          · rw [List.length_take]
            omega
          · intro p hp
            have hmem : p ∈ cutout_sphere cubePoints rmin := List.take_subset _ _ hp
            have hfil := List.mem_filter.1 hmem
            have hsh := hfil.2
            simp only [in_shell, decide_eq_true_eq] at hsh
            rcases hsh with ⟨h2 | h2, h3⟩
            · linarith
            · exact ⟨h2, h3⟩
        · rw [if_neg hlen] at h
          exact ih _ _ h
  obtain ⟨hlen, hsh⟩ := key fuel estimate0 l hok
  refine ⟨hlen, fun p hp => ?_⟩
  obtain ⟨h2, h3⟩ := hsh p hp
  have hns : (0 : ℚ) ≤ normSq p := by
    unfold normSq
    positivity
  constructor
  · rw [Real.le_sqrt (by exact_mod_cast h0.le) (by exact_mod_cast hns)]
    exact_mod_cast h2
  · rw [Real.sqrt_lt' (by norm_num : (0 : ℝ) < 1)]
    have : ((normSq p : ℚ) : ℝ) < 1 := by exact_mod_cast h3
    nlinarith

/-- Witness for C2: a one-point cube generator whose point survives the
shell cutout for rmin = 1/2, run with one unit of fuel. -/
theorem c2_uniform_hollow_sphere_count_and_shell_witness :
    ((0 : ℚ) < 1/2 ∧ (1/2 : ℚ) < 1 ∧
      uniform_hollow_sphere (fun _ => some [((0 : ℚ), (0 : ℚ), (3/4 : ℚ))])
        1 (1/2) 0 1 = GenResult.ok [(0, 0, 3/4)]) ∧
    ([((0 : ℚ), (0 : ℚ), (3/4 : ℚ))].length = 1 ∧
      ∀ p ∈ [((0 : ℚ), (0 : ℚ), (3/4 : ℚ))],
        (((1/2 : ℚ) : ℝ) ≤ Real.sqrt ((normSq p : ℚ) : ℝ)
          ∧ Real.sqrt ((normSq p : ℚ) : ℝ) < 1)) :=
  ⟨⟨by norm_num, by norm_num,
      by rw [uniform_hollow_sphere, hollow_sphere_loop]
         norm_num [cutout_sphere, in_shell, normSq, List.filter]⟩,
    c2_uniform_hollow_sphere_count_and_shell
      (fun _ => some [((0 : ℚ), (0 : ℚ), (3/4 : ℚ))]) 1 (1/2) 0 1
      [(0, 0, 3/4)] (by norm_num) (by norm_num)
      (by rw [uniform_hollow_sphere, hollow_sphere_loop]
          norm_num [cutout_sphere, in_shell, normSq, List.filter])⟩

/-- C9: a star whose lost mass is exactly the particle mass triggers no
emission: the per-star condition and has_new_wind_particles both use a
strict comparison, so the star is left unchanged, the batch is empty, and
has_new_wind_particles is false. -/
theorem c9_exact_particle_mass_triggers_no_emission (m t : ℚ) (star : WindStar)
    (h : star.lost_mass = m) :
    create_wind_particles_step t m star = (star, 0) ∧
    create_wind_particles t m [star] = ([star], 0) ∧
    has_new_wind_particles m [star] = false := by
  have hnot : ¬ m < star.lost_mass := by
    rw [h]
    exact lt_irrefl m
  refine ⟨?_, ?_, ?_⟩
  · simp [create_wind_particles_step, hnot]
  · simp [create_wind_particles, create_wind_particles_step, hnot]
  · simp [has_new_wind_particles, List.max?, h]

/-- Witness for C9: a star holding exactly one particle mass. -/
theorem c9_exact_particle_mass_triggers_no_emission_witness :
    ((⟨1, 0, 0, 0, 0, 0⟩ : WindStar).lost_mass = 1) ∧
    (create_wind_particles_step 0 1 ⟨1, 0, 0, 0, 0, 0⟩ = (⟨1, 0, 0, 0, 0, 0⟩, 0) ∧
      create_wind_particles 0 1 [⟨1, 0, 0, 0, 0, 0⟩] = ([⟨1, 0, 0, 0, 0, 0⟩], 0) ∧
      has_new_wind_particles 1 [⟨1, 0, 0, 0, 0, 0⟩] = false) :=
  ⟨by decide,
    c9_exact_particle_mass_triggers_no_emission 1 0 ⟨1, 0, 0, 0, 0, 0⟩ (by decide)⟩

/-- C10: of the three cube-filling strategies only the random one can
produce samples: with grid_type regular or body_centered, every call of
uniform_hollow_sphere fails with an error on its first iteration, because
those cube generators accept no count argument yet are invoked with one and
their bodies reference the undefined name targetN. -/
theorem c10_grid_strategies_always_error (stream : ℕ → Point3) (N : ℕ)
    (rmin estimate0 : ℚ) (fuel : ℕ) (hfuel : 0 < fuel) :
    uniform_hollow_sphere (cube_generator "regular" stream) N rmin estimate0 fuel
        = GenResult.error ∧
    uniform_hollow_sphere (cube_generator "body_centered" stream) N rmin estimate0 fuel
        = GenResult.error := by
  obtain ⟨k, rfl⟩ : ∃ k, fuel = k + 1 := ⟨fuel - 1, by omega⟩
  have h1 : cube_generator "regular" stream = regular_grid_unit_cube := rfl
  have h2 : cube_generator "body_centered" stream = body_centered_grid_unit_cube := rfl
  rw [uniform_hollow_sphere, uniform_hollow_sphere, h1, h2]
  constructor <;>
    simp [hollow_sphere_loop, regular_grid_unit_cube, body_centered_grid_unit_cube]

/-- Witness for C10: one unit of fuel and a trivial random stream. -/
theorem c10_grid_strategies_always_error_witness :
    (0 < 1) ∧
    (uniform_hollow_sphere (cube_generator "regular" (fun _ => (0, 0, 0))) 5 (1/2) 0 1
        = GenResult.error ∧
      uniform_hollow_sphere (cube_generator "body_centered" (fun _ => (0, 0, 0))) 5 (1/2) 0 1
        = GenResult.error) :=
  ⟨by decide,
    c10_grid_strategies_always_error (fun _ => (0, 0, 0)) 5 (1/2) 0 1 (by decide)⟩

/-! ### Helper lemmas shared by several claims -/

/-- The per-star mass-loss update only adds elapsed time times the rate to
the lost mass, whatever the tracking flags. -/
theorem evolve_star_step_lost (elapsed_time : ℚ) (track seed : Bool) (s : WindStar) :
    (evolve_star_step elapsed_time track seed s).lost_mass
      = s.lost_mass + elapsed_time * s.wind_mass_loss_rate := by
  cases track <;> simp [evolve_star_step]

/-- The per-star mass-loss update never changes the mass-loss rate. -/
theorem evolve_star_step_rate (elapsed_time : ℚ) (track seed : Bool) (s : WindStar) :
    (evolve_star_step elapsed_time track seed s).wind_mass_loss_rate
      = s.wind_mass_loss_rate := by
  cases track <;> simp [evolve_star_step]

/-- With zero elapsed time the per-star update leaves the lost mass alone. -/
theorem evolve_star_step_zero_lost (track seed : Bool) (s : WindStar) :
    (evolve_star_step 0 track seed s).lost_mass = s.lost_mass := by
  rw [evolve_star_step_lost]
  ring

/-- With zero elapsed time the per-star update leaves the mechanical energy
alone (the trapezoid contribution is zero times the average luminosity). -/
theorem evolve_star_step_zero_energy (track seed : Bool) (s : WindStar) :
    (evolve_star_step 0 track seed s).mechanical_energy = s.mechanical_energy := by
  cases track <;> simp [evolve_star_step]

/-- Re-running the per-star update with zero elapsed time immediately after
an update is the identity, provided the seed flag is off whenever tracking
is on (which is exactly the state evolve_mass_loss leaves behind). -/
theorem evolve_star_step_repeat (elapsed_time : ℚ) (track seed seed2 : Bool)
    (h : track = true → seed2 = false) (s : WindStar) :
    evolve_star_step 0 track seed2 (evolve_star_step elapsed_time track seed s)
      = evolve_star_step elapsed_time track seed s := by
  obtain ⟨lm, wrt, rate, tv, me, pml⟩ := s
  cases track with
  | false => simp [evolve_star_step]
  | true =>
    have hs2 : seed2 = false := h rfl
    subst hs2
    simp [evolve_star_step]

/-- The catch-up loop does nothing when the requested time is already in the
past. -/
theorem evolve_loop_stop (time dt sph_particle_mass : ℚ) (st : LoopState)
    (h : time < st.model_time) :
    evolve_loop time dt sph_particle_mass st = (st, 0) := by
  rw [evolve_loop]
  rw [dif_neg]
  rintro ⟨-, hle⟩
  exact absurd hle (not_le.2 h)

/-- One unfolding of the catch-up loop in the running case. -/
theorem evolve_loop_go (time dt sph_particle_mass : ℚ) (st : LoopState)
    (hdt : 0 < dt) (hle : st.model_time ≤ time) :
    evolve_loop time dt sph_particle_mass st =
      ((evolve_loop time dt sph_particle_mass
          ⟨(loop_body sph_particle_mass st).1, (loop_body sph_particle_mass st).2,
            st.model_time + dt⟩).1,
        (evolve_loop time dt sph_particle_mass
          ⟨(loop_body sph_particle_mass st).1, (loop_body sph_particle_mass st).2,
            st.model_time + dt⟩).2 + 1) := by
  conv_lhs => rw [evolve_loop]
  rw [dif_pos ⟨hdt, hle⟩]

/-- C5 counterexample: advancing to a time exactly equal to the last
recorded time is not ignored when mechanical-energy tracking is on: the
stored previous mechanical luminosity is overwritten by the current
instantaneous luminosity. Here a star whose rate was changed to 3 after its
previous luminosity 1/2 was recorded gets 3/2 written over it by a call at
exactly the last recorded time 1. -/
theorem c5_counterexample_equal_time_rewrites_luminosity :
    (evolve_mass_loss 1 ⟨[⟨0, 0, 3, 1, 0, 1/2⟩], 1, 1, true, false⟩).stars.map
        (fun s => s.previous_mechanical_luminosity)
      ≠ (⟨[⟨0, 0, 3, 1, 0, 1/2⟩], 1, 1, true, false⟩ : StarCollection).stars.map
        (fun s => s.previous_mechanical_luminosity) := by
  norm_num [evolve_mass_loss, evolve_star_step]

/-- C5 amended: advancing strictly backward is a complete no-op; advancing
to exactly the last recorded time accumulates nothing (lost mass,
mechanical energy and both recorded timestamps are unchanged), and a second
advance to the same time is always the identity on the whole collection —
but at exactly the last recorded time the call is not skipped, so the
previous mechanical luminosity may be rewritten (see the counterexample). -/
theorem c5_amended_backward_time_is_ignored (t : ℚ) (c : StarCollection) :
    (t < c.previous_time → evolve_mass_loss t c = c) ∧
    (c.timestamp = c.previous_time →
      ((evolve_mass_loss c.previous_time c).stars.map (fun s => s.lost_mass)
          = c.stars.map (fun s => s.lost_mass) ∧
        (evolve_mass_loss c.previous_time c).stars.map (fun s => s.mechanical_energy)
          = c.stars.map (fun s => s.mechanical_energy) ∧
        (evolve_mass_loss c.previous_time c).previous_time = c.previous_time ∧
        (evolve_mass_loss c.previous_time c).timestamp = c.timestamp)) ∧
    evolve_mass_loss t (evolve_mass_loss t c) = evolve_mass_loss t c := by
  refine ⟨?_, ?_, ?_⟩
  · intro hlt
    rw [evolve_mass_loss, if_pos hlt]
  · intro hts
    have hguard : ¬ c.previous_time > c.previous_time := lt_irrefl _
    rw [evolve_mass_loss, if_neg hguard]
    refine ⟨?_, ?_, rfl, hts.symm ▸ rfl⟩
    · simp only [List.map_map]
      refine List.map_congr_left fun s _ => ?_
      simp only [Function.comp_apply, sub_self]
      exact evolve_star_step_zero_lost _ _ s
    · simp only [List.map_map]
      refine List.map_congr_left fun s _ => ?_
      simp only [Function.comp_apply, sub_self]
      exact evolve_star_step_zero_energy _ _ s
  · by_cases h : c.previous_time > t
    · have hc : evolve_mass_loss t c = c := by rw [evolve_mass_loss, if_pos h]
      rw [hc]
      exact hc
    · obtain ⟨stars, ts, pt, tr, nu⟩ := c
      simp only [not_lt] at h
      have h1 : evolve_mass_loss t ⟨stars, ts, pt, tr, nu⟩
          = ⟨stars.map (evolve_star_step (t - pt) tr nu), t, t,
              tr, if tr && nu then false else nu⟩ := by
        rw [evolve_mass_loss, if_neg (not_lt.2 h)]
      rw [h1]
      have hguard : ¬ (⟨stars.map (evolve_star_step (t - pt) tr nu), t, t,
          tr, if tr && nu then false else nu⟩ : StarCollection).previous_time > t :=
        lt_irrefl _
      rw [evolve_mass_loss, if_neg hguard]
      simp only [StarCollection.mk.injEq]
      refine ⟨?_, trivial, trivial, trivial, ?_⟩
      · simp only [sub_self, List.map_map]
        refine List.map_congr_left fun s _ => ?_
        simp only [Function.comp_apply]
        refine evolve_star_step_repeat _ _ _ _ ?_ s
        intro htr
        subst htr
        cases nu <;> simp
      · cases tr <;> cases nu <;> simp

/-- Witness for C5 at a concrete collection with tracking on: a strictly
backward call at time 0, the equal-time projections, and idempotence. -/
theorem c5_amended_backward_time_is_ignored_witness :
    ((0 : ℚ) < (⟨[⟨2, 0, 3, 1, 5, 7⟩], 1, 1, true, false⟩ : StarCollection).previous_time ∧
      (⟨[⟨2, 0, 3, 1, 5, 7⟩], 1, 1, true, false⟩ : StarCollection).timestamp
        = (⟨[⟨2, 0, 3, 1, 5, 7⟩], 1, 1, true, false⟩ : StarCollection).previous_time) ∧
    (evolve_mass_loss 0 ⟨[⟨2, 0, 3, 1, 5, 7⟩], 1, 1, true, false⟩
        = ⟨[⟨2, 0, 3, 1, 5, 7⟩], 1, 1, true, false⟩ ∧
      ((evolve_mass_loss (⟨[⟨2, 0, 3, 1, 5, 7⟩], 1, 1, true, false⟩ :
            StarCollection).previous_time
            ⟨[⟨2, 0, 3, 1, 5, 7⟩], 1, 1, true, false⟩).stars.map (fun s => s.lost_mass)
          = (⟨[⟨2, 0, 3, 1, 5, 7⟩], 1, 1, true, false⟩ :
            StarCollection).stars.map (fun s => s.lost_mass) ∧
        (evolve_mass_loss (⟨[⟨2, 0, 3, 1, 5, 7⟩], 1, 1, true, false⟩ :
            StarCollection).previous_time
            ⟨[⟨2, 0, 3, 1, 5, 7⟩], 1, 1, true, false⟩).stars.map
              (fun s => s.mechanical_energy)
          = (⟨[⟨2, 0, 3, 1, 5, 7⟩], 1, 1, true, false⟩ :
            StarCollection).stars.map (fun s => s.mechanical_energy) ∧
        (evolve_mass_loss (⟨[⟨2, 0, 3, 1, 5, 7⟩], 1, 1, true, false⟩ :
            StarCollection).previous_time
            ⟨[⟨2, 0, 3, 1, 5, 7⟩], 1, 1, true, false⟩).previous_time
          = (⟨[⟨2, 0, 3, 1, 5, 7⟩], 1, 1, true, false⟩ :
            StarCollection).previous_time ∧
        (evolve_mass_loss (⟨[⟨2, 0, 3, 1, 5, 7⟩], 1, 1, true, false⟩ :
            StarCollection).previous_time
            ⟨[⟨2, 0, 3, 1, 5, 7⟩], 1, 1, true, false⟩).timestamp
          = (⟨[⟨2, 0, 3, 1, 5, 7⟩], 1, 1, true, false⟩ :
            StarCollection).timestamp) ∧
      evolve_mass_loss 0 (evolve_mass_loss 0 ⟨[⟨2, 0, 3, 1, 5, 7⟩], 1, 1, true, false⟩)
        = evolve_mass_loss 0 ⟨[⟨2, 0, 3, 1, 5, 7⟩], 1, 1, true, false⟩) :=
  ⟨⟨by norm_num, rfl⟩,
    ⟨(c5_amended_backward_time_is_ignored 0
        ⟨[⟨2, 0, 3, 1, 5, 7⟩], 1, 1, true, false⟩).1 (by norm_num),
      (c5_amended_backward_time_is_ignored 0
        ⟨[⟨2, 0, 3, 1, 5, 7⟩], 1, 1, true, false⟩).2.1 rfl,
      (c5_amended_backward_time_is_ignored 0
        ⟨[⟨2, 0, 3, 1, 5, 7⟩], 1, 1, true, false⟩).2.2⟩⟩

/-- C7 counterexample: in the no-target configuration, asking the engine to
evolve to a time earlier than the current model time is not a no-op: the
model time is set backward to the requested time. -/
theorem c7_counterexample_no_target_clock_moves_back :
    (evolve_model 3 ⟨⟨[], 5, 5, false, false⟩, 1, 5, none⟩).model_time
      ≠ (⟨⟨[], 5, 5, false, false⟩, 1, 5, none⟩ : WindEngine).model_time := by
  norm_num [evolve_model]

/-- C7 amended: with a target gas collection configured, evolving to a time
earlier than the current model time is a complete no-op; without a target,
the mass-loss accounting is untouched (the backward-time guard skips it)
but the model time is set to the earlier requested time. -/
theorem c7_amended_backward_evolve_model (time : ℚ) (e : WindEngine) :
    (∀ gas dt, e.target = some (gas, dt) → time < e.model_time →
      evolve_model time e = e) ∧
    (e.target = none → time < e.particles.previous_time →
      ((evolve_model time e).particles = e.particles ∧
        (evolve_model time e).model_time = time)) := by
  constructor
  · intro gas dt htgt hlt
    obtain ⟨p, m, mt, tg⟩ := e
    simp only at htgt hlt
    subst htgt
    simp only [evolve_model]
    rw [evolve_loop_stop _ _ _ _ hlt]
  · intro htgt hlt
    obtain ⟨p, m, mt, tg⟩ := e
    simp only at htgt hlt
    subst htgt
    simp only [evolve_model]
    exact ⟨by rw [evolve_mass_loss, if_pos hlt], trivial⟩

/-- Witness for C7 in both configurations, at time 3 against a model time
of 5 and a last recorded time of 5. -/
theorem c7_amended_backward_evolve_model_witness :
    (((⟨⟨[], 5, 5, false, false⟩, 1, 5, some (2, 1)⟩ : WindEngine).target = some (2, 1) ∧
        (3 : ℚ) < (⟨⟨[], 5, 5, false, false⟩, 1, 5, some (2, 1)⟩ : WindEngine).model_time) ∧
      evolve_model 3 ⟨⟨[], 5, 5, false, false⟩, 1, 5, some (2, 1)⟩
        = ⟨⟨[], 5, 5, false, false⟩, 1, 5, some (2, 1)⟩) ∧
    (((⟨⟨[], 5, 5, false, false⟩, 1, 5, none⟩ : WindEngine).target = none ∧
        (3 : ℚ) < (⟨⟨[], 5, 5, false, false⟩, 1, 5, none⟩ :
          WindEngine).particles.previous_time) ∧
      ((evolve_model 3 ⟨⟨[], 5, 5, false, false⟩, 1, 5, none⟩).particles
          = (⟨⟨[], 5, 5, false, false⟩, 1, 5, none⟩ : WindEngine).particles ∧
        (evolve_model 3 ⟨⟨[], 5, 5, false, false⟩, 1, 5, none⟩).model_time = 3)) :=
  ⟨⟨⟨rfl, by norm_num⟩,
      (c7_amended_backward_evolve_model 3
        ⟨⟨[], 5, 5, false, false⟩, 1, 5, some (2, 1)⟩).1 2 1 rfl (by norm_num)⟩,
    ⟨⟨rfl, by norm_num⟩,
      (c7_amended_backward_evolve_model 3
        ⟨⟨[], 5, 5, false, false⟩, 1, 5, none⟩).2 rfl (by norm_num)⟩⟩

/-- C8: with a positive timestep, the catch-up loop of evolve_model
terminates for every target time reachable from the current model time, the
number of iterations is at most (target_time - model_time)/timestep + 1,
and the final model time overshoots the target (the loop body runs once
more on the last partial step). -/
theorem c8_catch_up_loop_bounded (time dt sph_particle_mass : ℚ)
    (st : LoopState) (hdt : 0 < dt) (hle : st.model_time ≤ time) :
    (((evolve_loop time dt sph_particle_mass st).2 : ℚ)
        ≤ (time - st.model_time) / dt + 1) ∧
    time < (evolve_loop time dt sph_particle_mass st).1.model_time := by
  have main : ∀ (n : ℕ) (st : LoopState),
      (⌊(time - st.model_time) / dt⌋ + 1).toNat ≤ n →
      st.model_time ≤ time →
      (((evolve_loop time dt sph_particle_mass st).2 : ℚ)
          ≤ (time - st.model_time) / dt + 1) ∧
      time < (evolve_loop time dt sph_particle_mass st).1.model_time := by
    intro n
    induction n with
    | zero =>
      intro st hn hle2
      exfalso
      have h0 : (0 : ℤ) ≤ ⌊(time - st.model_time) / dt⌋ :=
        Int.floor_nonneg.2 (div_nonneg (by linarith) hdt.le)
      omega
    | succ k ih =>
      intro st hn hle2
      rw [evolve_loop_go time dt sph_particle_mass st hdt hle2]
      have key : (time - (st.model_time + dt)) / dt
          = (time - st.model_time) / dt - 1 := by
        field_simp
        ring
      have h0 : (0 : ℤ) ≤ ⌊(time - st.model_time) / dt⌋ :=
        Int.floor_nonneg.2 (div_nonneg (by linarith) hdt.le)
      rcases le_or_lt (st.model_time + dt) time with h2 | h2
      · have hmeas : (⌊(time - (st.model_time + dt)) / dt⌋ + 1).toNat ≤ k := by
          rw [key, Int.floor_sub_one]
          omega
        have hrec := ih ⟨(loop_body sph_particle_mass st).1,
          (loop_body sph_particle_mass st).2, st.model_time + dt⟩ hmeas h2
        constructor
        · have hb := hrec.1
          simp only at hb
          rw [key] at hb
          push_cast
          linarith
        · exact hrec.2
      · have hstop := evolve_loop_stop time dt sph_particle_mass
          ⟨(loop_body sph_particle_mass st).1,
            (loop_body sph_particle_mass st).2, st.model_time + dt⟩ h2
        rw [hstop]
        constructor
        · have hpos : (0 : ℚ) ≤ (time - st.model_time) / dt :=
            div_nonneg (by linarith) hdt.le
          push_cast
          linarith
        · exact h2
  exact main ((⌊(time - st.model_time) / dt⌋ + 1).toNat) st le_rfl hle

/-- Witness for C8: one star collection, timestep 1, from model time 0 to
target time 1 (two iterations, bound (1 - 0)/1 + 1 = 2). -/
theorem c8_catch_up_loop_bounded_witness :
    ((0 : ℚ) < 1 ∧
      ((⟨⟨[], 0, 0, false, false⟩, 0, 0⟩ : LoopState).model_time : ℚ) ≤ 1) ∧
    ((((evolve_loop 1 1 1 ⟨⟨[], 0, 0, false, false⟩, 0, 0⟩).2 : ℚ)
        ≤ (1 - (⟨⟨[], 0, 0, false, false⟩, 0, 0⟩ : LoopState).model_time) / 1 + 1) ∧
      (1 : ℚ) < (evolve_loop 1 1 1 ⟨⟨[], 0, 0, false, false⟩, 0, 0⟩).1.model_time) :=
  ⟨⟨by norm_num, by norm_num⟩,
    c8_catch_up_loop_bounded 1 1 1 ⟨⟨[], 0, 0, false, false⟩, 0, 0⟩
      (by norm_num) (by norm_num)⟩

/-- Resetting the engine zeroes the model time. -/
theorem reset_engine_model_time (e : WindEngine) :
    (reset_engine e).model_time = 0 := rfl

/-- Resetting the engine zeroes the lost mass of every star. -/
theorem reset_engine_lost_mass (e : WindEngine) :
    ∀ u ∈ (reset_engine e).particles.stars, u.lost_mass = 0 := by
  intro u hu
  simp only [reset_engine, reset_collection, set_begin_time, List.map_map,
    List.mem_map] at hu
  obtain ⟨v, hv, rfl⟩ := hu
  rfl

/-- C6: starting from a fresh single-star engine with a positive fixed mass
loss rate, positive particle mass and no target gas, create_initial_wind
with number 500 succeeds and returns a batch of at least 500 particles
whose total mass is within one particle mass of 500 times the particle
mass, and afterwards the engine clock is reset (model time zero and every
lost mass zero). In exact arithmetic the batch holds exactly 500 particles. -/
theorem c6_create_initial_wind_number_500
    (e : WindEngine) (s : WindStar)
    (hstars : e.particles.stars = [s])
    (hlost : s.lost_mass = 0)
    (hprev : e.particles.previous_time = 0)
    (hm : 0 < e.sph_particle_mass)
    (hrate : 0 < s.wind_mass_loss_rate)
    (htarget : e.target = none) :
    ∃ k e2, create_initial_wind 500 true e = some (k, e2) ∧
      500 ≤ k ∧
      |(k : ℚ) * e.sph_particle_mass - 500 * e.sph_particle_mass|
        ≤ e.sph_particle_mass ∧
      e2.model_time = 0 ∧
      ∀ u ∈ e2.particles.stars, u.lost_mass = 0 := by
  obtain ⟨⟨stars0, ts0, pt0, tr0, nu0⟩, m0, mt0, tg0⟩ := e
  simp only at hstars hprev hm htarget ⊢
  subst hstars
  subst hprev
  subst htarget
  have hr : s.wind_mass_loss_rate ≠ 0 := ne_of_gt hrate
  have hm0 : m0 ≠ 0 := ne_of_gt hm
  simp only [create_initial_wind, List.map_cons, List.map_nil, List.sum_cons,
    List.sum_nil, add_zero, Nat.cast_ofNat]
  have hTpos : 0 < 1 * (500 * m0) / s.wind_mass_loss_rate := by positivity
  have hguard : ¬ ((⟨[s], ts0, 0, tr0, nu0⟩ : StarCollection).previous_time
      > 1 * (500 * m0) / s.wind_mass_loss_rate) := by
    simp only [StarCollection.previous_time]
    exact not_lt.2 hTpos.le
  have hevolve : evolve_mass_loss (1 * (500 * m0) / s.wind_mass_loss_rate)
      ⟨[s], ts0, 0, tr0, nu0⟩
      = ⟨[evolve_star_step (1 * (500 * m0) / s.wind_mass_loss_rate - 0) tr0 nu0 s],
          1 * (500 * m0) / s.wind_mass_loss_rate,
          1 * (500 * m0) / s.wind_mass_loss_rate, tr0,
          if tr0 && nu0 then false else nu0⟩ := by
    rw [evolve_mass_loss, if_neg hguard]
    rfl
  have hlost2 : (evolve_star_step (1 * (500 * m0) / s.wind_mass_loss_rate - 0)
      tr0 nu0 s).lost_mass = 500 * m0 := by
    rw [evolve_star_step_lost, hlost]
    field_simp
  have hmax : (([evolve_star_step (1 * (500 * m0) / s.wind_mass_loss_rate - 0)
      tr0 nu0 s].map (fun u => u.lost_mass)).max?)
      = some (evolve_star_step (1 * (500 * m0) / s.wind_mass_loss_rate - 0)
          tr0 nu0 s).lost_mass := rfl
  have hhn : has_new_wind_particles m0
      [evolve_star_step (1 * (500 * m0) / s.wind_mass_loss_rate - 0) tr0 nu0 s]
      = true := by
    rw [has_new_wind_particles, hmax, hlost2]
    simp only [decide_eq_true_eq]
    nlinarith
  have hdiv : (evolve_star_step (1 * (500 * m0) / s.wind_mass_loss_rate - 0)
      tr0 nu0 s).lost_mass / m0 = 500 := by
    rw [hlost2]
    field_simp
  have hstepcount : (create_wind_particles_step
      (1 * (500 * m0) / s.wind_mass_loss_rate) m0
      (evolve_star_step (1 * (500 * m0) / s.wind_mass_loss_rate - 0) tr0 nu0 s)).2
      = 500 := by
    rw [create_wind_particles_step, if_pos (by rw [hlost2]; nlinarith)]
    simp only [create_wind_particles_for_one_star, hdiv]
    norm_num [pyInt]
    rfl
  rw [hevolve]
  simp only [StarCollection.stars, WindEngine.sph_particle_mass,
    WindEngine.model_time, hhn, if_true]
  refine ⟨_, _, rfl, ?_, ?_, reset_engine_model_time _, reset_engine_lost_mass _⟩
  · simp only [create_wind_particles, List.map_cons, List.map_nil, List.sum_cons,
      List.sum_nil, add_zero, hstepcount]
    exact le_refl 500
  · simp only [create_wind_particles, List.map_cons, List.map_nil, List.sum_cons,
      List.sum_nil, add_zero, hstepcount]
    push_cast
    simp only [sub_self, abs_zero]
    exact hm.le

/-- Witness for C6: a fresh engine with one star of rate 1 and particle
mass 1 and no target gas. -/
theorem c6_create_initial_wind_number_500_witness :
    ((⟨⟨[⟨0, 0, 1, 0, 0, 0⟩], 0, 0, false, false⟩, 1, 0, none⟩ :
          WindEngine).particles.stars = [⟨0, 0, 1, 0, 0, 0⟩] ∧
      (⟨0, 0, 1, 0, 0, 0⟩ : WindStar).lost_mass = 0 ∧
      (⟨⟨[⟨0, 0, 1, 0, 0, 0⟩], 0, 0, false, false⟩, 1, 0, none⟩ :
          WindEngine).particles.previous_time = 0 ∧
      (0 : ℚ) < (⟨⟨[⟨0, 0, 1, 0, 0, 0⟩], 0, 0, false, false⟩, 1, 0, none⟩ :
          WindEngine).sph_particle_mass ∧
      (0 : ℚ) < (⟨0, 0, 1, 0, 0, 0⟩ : WindStar).wind_mass_loss_rate ∧
      (⟨⟨[⟨0, 0, 1, 0, 0, 0⟩], 0, 0, false, false⟩, 1, 0, none⟩ :
          WindEngine).target = none) ∧
    (∃ k e2, create_initial_wind 500 true
        ⟨⟨[⟨0, 0, 1, 0, 0, 0⟩], 0, 0, false, false⟩, 1, 0, none⟩ = some (k, e2) ∧
      500 ≤ k ∧
      |(k : ℚ) * (⟨⟨[⟨0, 0, 1, 0, 0, 0⟩], 0, 0, false, false⟩, 1, 0, none⟩ :
            WindEngine).sph_particle_mass
          - 500 * (⟨⟨[⟨0, 0, 1, 0, 0, 0⟩], 0, 0, false, false⟩, 1, 0, none⟩ :
            WindEngine).sph_particle_mass|
        ≤ (⟨⟨[⟨0, 0, 1, 0, 0, 0⟩], 0, 0, false, false⟩, 1, 0, none⟩ :
            WindEngine).sph_particle_mass ∧
      e2.model_time = 0 ∧
      ∀ u ∈ e2.particles.stars, u.lost_mass = 0) :=
  ⟨⟨rfl, rfl, rfl, by norm_num, by norm_num, rfl⟩,
    c6_create_initial_wind_number_500
      ⟨⟨[⟨0, 0, 1, 0, 0, 0⟩], 0, 0, false, false⟩, 1, 0, none⟩
      ⟨0, 0, 1, 0, 0, 0⟩ rfl rfl rfl (by norm_num) (by norm_num) rfl⟩

/-- C3 counterexample: the velocity-power-law variant applies no cutoff
clamp, so at the cutoff radius its velocity is v_init + (v_end - v_init) *
(1 - R/r_cut)^alpha, not the terminal velocity. For a star of radius 1,
cutoff 5, initial velocity 0 and terminal velocity 1, the value at the
cutoff is (4/5)^4, not 1. -/
theorem c3_counterexample_velocity_law_at_cutoff :
    velocity_law_velocity_from_radius 4 ⟨1, 2, 5, 0, 1⟩
        (⟨1, 2, 5, 0, 1⟩ : AccStar).acc_cutoff
      ≠ (⟨1, 2, 5, 0, 1⟩ : AccStar).terminal_wind_velocity := by
  simp only [velocity_law_velocity_from_radius]
  norm_num

/-- C3 amended: the endpoint identities hold law by law where the source
applies them: the inverse-square and delayed inverse-square laws attain the
initial velocity at the stellar surface and the terminal velocity at the
cutoff radius; the velocity-power-law attains the initial velocity at the
surface (but not, in general, the terminal velocity at the cutoff, see the
counterexample); the constant-velocity law returns the terminal velocity
everywhere, in particular at the cutoff (so it matches the initial velocity
only when the two coincide). -/
theorem c3_amended_endpoint_velocities (star : AccStar) (alpha : ℕ)
    (hR : 0 < star.radius) (hs : star.radius < star.acc_start)
    (hc : star.acc_start < star.acc_cutoff)
    (hvi : 0 ≤ star.initial_wind_velocity)
    (hve : 0 ≤ star.terminal_wind_velocity)
    (ha : 0 < alpha) :
    rsquared_velocity_from_radius star star.radius
        = star.initial_wind_velocity ∧
    rsquared_velocity_from_radius star star.acc_cutoff
        = star.terminal_wind_velocity ∧
    delayed_rsquared_velocity_from_radius star star.radius
        = star.initial_wind_velocity ∧
    delayed_rsquared_velocity_from_radius star star.acc_cutoff
        = star.terminal_wind_velocity ∧
    velocity_law_velocity_from_radius alpha star star.radius
        = star.initial_wind_velocity ∧
    constant_velocity_velocity_from_radius star star.acc_cutoff
        = star.terminal_wind_velocity := by
  have hRc : star.radius < star.acc_cutoff := hs.trans hc
  have hR0 : star.radius ≠ 0 := ne_of_gt hR
  have hs0 : (0 : ℝ) < star.acc_start := hR.trans hs
  have hc0 : (0 : ℝ) < star.acc_cutoff := hs0.trans hc
  refine ⟨?_, ?_, ?_, ?_, ?_, rfl⟩
  · rw [rsquared_velocity_from_radius, fix_v_cutoff, if_neg (not_lt.2 hRc.le)]
    rw [sub_self, mul_zero, zero_add, Real.sqrt_sq hvi]
  · rw [rsquared_velocity_from_radius, fix_v_cutoff, if_neg (lt_irrefl _)]
    have hE : (0 : ℝ) < 1 / star.radius - 1 / star.acc_cutoff :=
      sub_pos.2 (one_div_lt_one_div_of_lt hR hRc)
    have harg : 2 * rsquared_scaling star
          * (1 / star.radius - 1 / star.acc_cutoff)
          + star.initial_wind_velocity ^ 2
        = star.terminal_wind_velocity ^ 2 := by
      rw [rsquared_scaling]
      set E := 1 / star.radius - 1 / star.acc_cutoff with hEdef
      field_simp [ne_of_gt hE]
      ring
    rw [harg, Real.sqrt_sq hve]
  · rw [delayed_rsquared_velocity_from_radius, fix_v_cutoff,
      if_neg (not_lt.2 hRc.le), fix_v_start_cutoff, if_pos hs]
  · rw [delayed_rsquared_velocity_from_radius, fix_v_cutoff,
      if_neg (lt_irrefl _), fix_v_start_cutoff, if_neg (not_lt.2 hc.le)]
    have hE : (0 : ℝ) < 1 / star.acc_start - 1 / star.acc_cutoff :=
      sub_pos.2 (one_div_lt_one_div_of_lt hs0 hc)
    have harg : 2 * delayed_rsquared_scaling star
          * (1 / star.acc_start - 1 / star.acc_cutoff)
          + star.initial_wind_velocity ^ 2
        = star.terminal_wind_velocity ^ 2 := by
      rw [delayed_rsquared_scaling]
      set E := 1 / star.acc_start - 1 / star.acc_cutoff with hEdef
      field_simp [ne_of_gt hE]
      ring
    rw [harg, Real.sqrt_sq hve]
  · rw [velocity_law_velocity_from_radius, div_self hR0, sub_self,
      zero_pow (by omega : alpha ≠ 0)]
    ring

/-- Witness for C3 at the star with radius 1, start 2, cutoff 5, initial
velocity 0, terminal velocity 1, and exponent 1. -/
theorem c3_amended_endpoint_velocities_witness :
    ((0 : ℝ) < (⟨1, 2, 5, 0, 1⟩ : AccStar).radius ∧
      (⟨1, 2, 5, 0, 1⟩ : AccStar).radius < (⟨1, 2, 5, 0, 1⟩ : AccStar).acc_start ∧
      (⟨1, 2, 5, 0, 1⟩ : AccStar).acc_start < (⟨1, 2, 5, 0, 1⟩ : AccStar).acc_cutoff ∧
      (0 : ℝ) ≤ (⟨1, 2, 5, 0, 1⟩ : AccStar).initial_wind_velocity ∧
      (0 : ℝ) ≤ (⟨1, 2, 5, 0, 1⟩ : AccStar).terminal_wind_velocity ∧
      0 < 1) ∧
    (rsquared_velocity_from_radius ⟨1, 2, 5, 0, 1⟩ (⟨1, 2, 5, 0, 1⟩ : AccStar).radius
        = (⟨1, 2, 5, 0, 1⟩ : AccStar).initial_wind_velocity ∧
      rsquared_velocity_from_radius ⟨1, 2, 5, 0, 1⟩ (⟨1, 2, 5, 0, 1⟩ : AccStar).acc_cutoff
        = (⟨1, 2, 5, 0, 1⟩ : AccStar).terminal_wind_velocity ∧
      delayed_rsquared_velocity_from_radius ⟨1, 2, 5, 0, 1⟩
          (⟨1, 2, 5, 0, 1⟩ : AccStar).radius
        = (⟨1, 2, 5, 0, 1⟩ : AccStar).initial_wind_velocity ∧
      delayed_rsquared_velocity_from_radius ⟨1, 2, 5, 0, 1⟩
          (⟨1, 2, 5, 0, 1⟩ : AccStar).acc_cutoff
        = (⟨1, 2, 5, 0, 1⟩ : AccStar).terminal_wind_velocity ∧
      velocity_law_velocity_from_radius 1 ⟨1, 2, 5, 0, 1⟩
          (⟨1, 2, 5, 0, 1⟩ : AccStar).radius
        = (⟨1, 2, 5, 0, 1⟩ : AccStar).initial_wind_velocity ∧
      constant_velocity_velocity_from_radius ⟨1, 2, 5, 0, 1⟩
          (⟨1, 2, 5, 0, 1⟩ : AccStar).acc_cutoff
        = (⟨1, 2, 5, 0, 1⟩ : AccStar).terminal_wind_velocity) :=
  ⟨⟨by norm_num, by norm_num, by norm_num, by norm_num, by norm_num, by norm_num⟩,
    c3_amended_endpoint_velocities ⟨1, 2, 5, 0, 1⟩ 1 (by norm_num) (by norm_num)
      (by norm_num) (by norm_num) (by norm_num) (by norm_num)⟩

/-- C4 counterexample: the claim quantifies over every fixed outer radius;
for the constant-velocity closed form with an outer radius below the
stellar radius the map is strictly decreasing in the quantile: with radius
1 and r_max = 0, quantile 0 maps to 1 and quantile 1 maps to 0. -/
theorem c4_counterexample_decreasing_below_radius :
    ¬ (constant_velocity_radius_from_number 0 0 ⟨1, 2, 5, 0, 1⟩
        ≤ constant_velocity_radius_from_number 1 0 ⟨1, 2, 5, 0, 1⟩) := by
  simp only [constant_velocity_radius_from_number]
  norm_num

/-- C4 amended: radius_from_number is monotone non-decreasing in the
quantile whenever the outer radius is at least the stellar radius: the
constant-velocity closed form directly, and the generic quadrature-based
implementation in the relational model of its root finder — whenever the
cumulative inverse-velocity integral is strictly increasing on the bracket
with positive total, roots of the normalised residual are ordered with the
quantiles. -/
theorem c4_amended_radius_from_number_monotone :
    (∀ (star : AccStar) (r_max x1 x2 : ℝ), star.radius ≤ r_max → x1 ≤ x2 →
      constant_velocity_radius_from_number x1 r_max star
        ≤ constant_velocity_radius_from_number x2 r_max star) ∧
    (∀ (F : ℝ → ℝ) (rmin r_max x1 x2 r1 r2 : ℝ),
      StrictMonoOn F (Set.Icc rmin r_max) → 0 < F r_max → x1 ≤ x2 →
      is_brentq_root (radius_from_number_residual F r_max x1) rmin r_max r1 →
      is_brentq_root (radius_from_number_residual F r_max x2) rmin r_max r2 →
      r1 ≤ r2) := by
  constructor
  · intro star r_max x1 x2 hle h12
    simp only [constant_velocity_radius_from_number]
    have := mul_le_mul_of_nonneg_right h12 (sub_nonneg.2 hle)
    linarith
  · intro F rmin r_max x1 x2 r1 r2 hmono hpos h12 h1 h2
    obtain ⟨hr1, he1⟩ := h1
    obtain ⟨hr2, he2⟩ := h2
    rw [radius_from_number_residual, sub_eq_zero,
      div_eq_iff (ne_of_gt hpos)] at he1 he2
    by_contra hlt
    push_neg at hlt
    have hF : F r2 < F r1 := hmono hr2 hr1 hlt
    rw [he1, he2] at hF
    have : x2 < x1 := lt_of_mul_lt_mul_right hF hpos.le
    linarith

/-- Witness for C4: the constant-velocity part at quantiles 0 and 1 with
outer radius 5, and the relational part at the identity cumulative integral
on the bracket [0, 1] with roots 0 and 1. -/
theorem c4_amended_radius_from_number_monotone_witness :
    ((⟨1, 2, 5, 0, 1⟩ : AccStar).radius ≤ 5 ∧ (0 : ℝ) ≤ 1 ∧
      constant_velocity_radius_from_number 0 5 ⟨1, 2, 5, 0, 1⟩
        ≤ constant_velocity_radius_from_number 1 5 ⟨1, 2, 5, 0, 1⟩) ∧
    (StrictMonoOn (fun x : ℝ => x) (Set.Icc (0 : ℝ) 1) ∧
      (0 : ℝ) < (fun x : ℝ => x) 1 ∧
      is_brentq_root (radius_from_number_residual (fun x : ℝ => x) 1 0) 0 1 0 ∧
      is_brentq_root (radius_from_number_residual (fun x : ℝ => x) 1 1) 0 1 1 ∧
      (0 : ℝ) ≤ 1) :=
  ⟨⟨by norm_num, by norm_num,
      c4_amended_radius_from_number_monotone.1 ⟨1, 2, 5, 0, 1⟩ 5 0 1
        (by norm_num) (by norm_num)⟩,
    ⟨fun a _ b _ h => h, by norm_num,
      ⟨by constructor <;> norm_num, by norm_num [radius_from_number_residual]⟩,
      ⟨by constructor <;> norm_num, by norm_num [radius_from_number_residual]⟩,
      c4_amended_radius_from_number_monotone.2 (fun x : ℝ => x) 0 1 0 1 0 1
        (fun a _ b _ h => h) (by norm_num)
        (by norm_num)
        ⟨by constructor <;> norm_num, by norm_num [radius_from_number_residual]⟩
        ⟨by constructor <;> norm_num, by norm_num [radius_from_number_residual]⟩⟩⟩
